import Mathlib

/-!
# Verification of the maps-project location/telemetry pipeline

Shallow embedding, in Lean 4, of the core of the `maps-project` repository:

* the IP-geolocation fallback chain and backend sync path
  (`src/services/locationService.ts`, and its later revision with the
  local artifact write and `isNaN` validity check, `src/unnamed/part_002`),
* the capture state machine of the App component (`src/unnamed/part_003`,
  the revision with optional camera and classified geolocation errors),
* the per-device grouping view (`src/components/AdminPanel.tsx`) and the
  per-IP deduplication view (`src/unnamed/part_001`, second AdminPanel
  revision), including its Haversine `calculateDistance`.

JavaScript `number` values are modelled by `JsNum`: either a finite value
(mathematical real, standing for the IEEE double) or one of the special
values `NaN`, `Infinity`, `-Infinity`.  The IEEE propagation rules the code
can observe (NaN absorption, signed infinities, `Math.sqrt` of a negative
number being `NaN`, comparisons with `NaN` being false) are modelled
exactly; rounding of finite doubles is idealised to exact real arithmetic,
and the unsigned real `0` stands for both IEEE zeros.  Timestamps
(`created_at`, `Date.now()`, `new Date(x).getTime()`) are modelled as
natural numbers, since the code only ever compares them numerically.
`Array.prototype.sort` with a numeric comparator is modelled by the stable
`List.insertionSort` (ES2019 sorts are stable, and none of the verified
statements depends on the order of equal keys).
-/

/-- Model of a JavaScript `number`: a finite double (idealised as a real),
`NaN`, `Infinity` or `-Infinity`. -/
inductive JsNum : Type
  | fin (x : ℝ)
  | nan
  | inf
  | ninf

namespace JsNum

/-- IEEE addition on `JsNum` (finite arithmetic idealised as exact). -/
noncomputable def add : JsNum → JsNum → JsNum
  | fin x, fin y => fin (x + y)
  | nan, _ => nan
  | _, nan => nan
  | inf, ninf => nan
  | ninf, inf => nan
  | inf, _ => inf
  | _, inf => inf
  | ninf, _ => ninf
  | _, ninf => ninf

/-- IEEE subtraction on `JsNum`. -/
noncomputable def sub : JsNum → JsNum → JsNum
  | fin x, fin y => fin (x - y)
  | nan, _ => nan
  | _, nan => nan
  | inf, inf => nan
  | ninf, ninf => nan
  | inf, _ => inf
  | ninf, _ => ninf
  | _, inf => ninf
  | _, ninf => inf

/-- IEEE multiplication on `JsNum` (`0 * Infinity` is `NaN`). -/
noncomputable def mul : JsNum → JsNum → JsNum
  | fin x, fin y => fin (x * y)
  | nan, _ => nan
  | _, nan => nan
  | inf, fin y => if y = 0 then nan else if 0 < y then inf else ninf
  | fin x, inf => if x = 0 then nan else if 0 < x then inf else ninf
  | ninf, fin y => if y = 0 then nan else if 0 < y then ninf else inf
  | fin x, ninf => if x = 0 then nan else if 0 < x then ninf else inf
  | inf, inf => inf
  | ninf, ninf => inf
  | inf, ninf => ninf
  | ninf, inf => ninf

/-- IEEE division on `JsNum` (division of a nonzero finite value by the
unsigned model zero gives the infinity of the numerator's sign, as for
the IEEE `+0`). -/
noncomputable def div : JsNum → JsNum → JsNum
  | fin x, fin y =>
      if y = 0 then (if x = 0 then nan else if 0 < x then inf else ninf)
      else fin (x / y)
  | nan, _ => nan
  | _, nan => nan
  | fin _, inf => fin 0
  | fin _, ninf => fin 0
  | inf, fin y => if 0 ≤ y then inf else ninf
  | ninf, fin y => if 0 ≤ y then ninf else inf
  | inf, _ => nan
  | ninf, _ => nan

/-- `Math.sin`: `NaN` on every non-finite argument. -/
noncomputable def sin : JsNum → JsNum
  | fin x => fin (Real.sin x)
  | _ => nan

/-- `Math.cos`: `NaN` on every non-finite argument. -/
noncomputable def cos : JsNum → JsNum
  | fin x => fin (Real.cos x)
  | _ => nan

/-- `Math.sqrt`: `NaN` on negative and `NaN` arguments, `Infinity` at
`Infinity`. -/
noncomputable def sqrt : JsNum → JsNum
  | fin x => if x < 0 then nan else fin (Real.sqrt x)
  | inf => inf
  | _ => nan

/-- Real-valued `atan2` on finite arguments, with `Math.atan2`'s branch
structure (`atan2(0, 0) = 0`, matching the IEEE `+0` case for the
unsigned model zero). -/
noncomputable def atan2R (y x : ℝ) : ℝ :=
  if 0 < x then Real.arctan (y / x)
  else if x < 0 then
    (if 0 ≤ y then Real.arctan (y / x) + Real.pi else Real.arctan (y / x) - Real.pi)
  else if 0 < y then Real.pi / 2
  else if y < 0 then -(Real.pi / 2)
  else 0

/-- `Math.atan2` on `JsNum`, including the conventional values at
infinite arguments. -/
noncomputable def atan2 : JsNum → JsNum → JsNum
  | nan, _ => nan
  | _, nan => nan
  | fin y, fin x => fin (atan2R y x)
  | inf, fin _ => fin (Real.pi / 2)
  | ninf, fin _ => fin (-(Real.pi / 2))
  | fin _, inf => fin 0
  | fin y, ninf => if 0 ≤ y then fin Real.pi else fin (-Real.pi)
  | inf, inf => fin (Real.pi / 4)
  | inf, ninf => fin (3 * Real.pi / 4)
  | ninf, inf => fin (-(Real.pi / 4))
  | ninf, ninf => fin (-(3 * Real.pi / 4))

/-- The JavaScript comparison `n > r` against a finite literal: false
whenever `n` is `NaN`, true for `Infinity`. -/
def gtR (n : JsNum) (r : ℝ) : Prop :=
  match n with
  | fin x => r < x
  | inf => True
  | nan => False
  | ninf => False

/-- `isNaN` applied to a value already known to be a number. -/
def isNan : JsNum → Bool
  | nan => true
  | _ => false

end JsNum

/-- Source: `deg2rad` (`src/unnamed/part_001`, lines 600-602):
`deg * (Math.PI / 180)`. -/
noncomputable def deg2rad (deg : JsNum) : JsNum :=
  deg.mul (JsNum.fin (Real.pi / 180))

/-- Source: `calculateDistance` (`src/unnamed/part_001`, lines 587-598).
Haversine great-circle distance in km between `(lat1, lon1)` and
`(lat2, lon2)` on a sphere of radius `R = 6371` km, written exactly as the
JavaScript, over the `JsNum` model. -/
noncomputable def calculateDistance (lat1 lon1 lat2 lon2 : JsNum) : JsNum :=
  let R : JsNum := JsNum.fin 6371
  let dLat := deg2rad (lat2.sub lat1)
  let dLon := deg2rad (lon2.sub lon1)
  let a :=
    ((dLat.div (JsNum.fin 2)).sin.mul (dLat.div (JsNum.fin 2)).sin).add
      ((((deg2rad lat1).cos.mul (deg2rad lat2).cos).mul
          (dLon.div (JsNum.fin 2)).sin).mul (dLon.div (JsNum.fin 2)).sin)
  let c := (JsNum.fin 2).mul (JsNum.atan2 a.sqrt ((JsNum.fin 1).sub a).sqrt)
  let d := R.mul c
  d

/-- The real-valued "a" term of the Haversine formula as computed by
`calculateDistance` on finite inputs. -/
noncomputable def havA (lat1 lon1 lat2 lon2 : ℝ) : ℝ :=
  Real.sin ((lat2 - lat1) * (Real.pi / 180) / 2) *
      Real.sin ((lat2 - lat1) * (Real.pi / 180) / 2) +
    Real.cos (lat1 * (Real.pi / 180)) * Real.cos (lat2 * (Real.pi / 180)) *
        Real.sin ((lon2 - lon1) * (Real.pi / 180) / 2) *
      Real.sin ((lon2 - lon1) * (Real.pi / 180) / 2)

/-- The tail of `calculateDistance` after the "a" term, as a function of a
real-valued "a". -/
noncomputable def havTail (a : ℝ) : JsNum :=
  (JsNum.fin 6371).mul
    ((JsNum.fin 2).mul (JsNum.atan2 (JsNum.fin a).sqrt (JsNum.fin (1 - a)).sqrt))

/-- Sync status of a log record (`src/unnamed/part_000`, `LogEntry.status`). -/
inductive SyncStatus : Type
  | synced
  | local_simulation
deriving DecidableEq

/-- Device fingerprint (`src/unnamed/part_000`, `DeviceInfo`). -/
structure DeviceInfo : Type where
  userAgent : String
  platform : String
  screenResolution : String
  windowSize : String
  language : String
  cores : Option JsNum
  memory : Option JsNum
  connectionType : Option String
  touchSupport : Bool
  gpuRenderer : Option String

/-- Log record (`src/unnamed/part_000`, `LogEntry`).  `created_at` is the
ISO timestamp, modelled by its epoch value `new Date(s).getTime()`. -/
structure LogEntry : Type where
  id : String
  latitude : JsNum
  longitude : JsNum
  device_id : String
  ip_address : Option String
  image_data : Option String
  device_info : Option DeviceInfo
  created_at : ℕ
  status : SyncStatus

/-- The comparator `(a, b) => new Date(b.created_at).getTime() - new
Date(a.created_at).getTime()` (newest first), as the relation a stable sort
orders by. -/
def byNewest (a b : LogEntry) : Prop :=
  b.created_at ≤ a.created_at

instance : DecidableRel byNewest := fun _ _ => Nat.decLe _ _

instance : IsTotal LogEntry byNewest :=
  ⟨fun a b => by unfold byNewest; exact Nat.le_total _ _⟩

instance : IsTrans LogEntry byNewest :=
  ⟨fun a b c h1 h2 => by unfold byNewest at *; exact Nat.le_trans h2 h1⟩

/-- The comparator `(a, b) => new Date(a.created_at).getTime() - new
Date(b.created_at).getTime()` (oldest first). -/
def byOldest (a b : LogEntry) : Prop :=
  a.created_at ≤ b.created_at

instance : DecidableRel byOldest := fun _ _ => Nat.decLe _ _

instance : IsTotal LogEntry byOldest :=
  ⟨fun a b => by unfold byOldest; exact Nat.le_total _ _⟩

instance : IsTrans LogEntry byOldest :=
  ⟨fun a b c h1 h2 => by unfold byOldest at *; exact Nat.le_trans h1 h2⟩

/-- JavaScript `a || b` on a possibly-absent string (`undefined` and the
empty string are falsy). -/
def jsOrOpt (a : Option String) (b : String) : String :=
  match a with
  | none => b
  | some s => if s = "" then b else s

/-- A reference point stored by the dedup loop's `ipTracker`:
`{ lat, lng }`. -/
abbrev IpRef := JsNum × JsNum

/-- `Map.prototype.get` on the `ipTracker`, modelled as an association
list. -/
def trackerFind : List (String × IpRef) → String → Option IpRef
  | [], _ => none
  | (k, v) :: rest, ip => if k = ip then some v else trackerFind rest ip

/-- `Map.prototype.set` on the `ipTracker`. -/
def trackerSet : List (String × IpRef) → String → IpRef → List (String × IpRef)
  | [], ip, v => [(ip, v)]
  | (k, w) :: rest, ip, v =>
      if k = ip then (k, v) :: rest else (k, w) :: trackerSet rest ip v

open Classical in
/-- One iteration of the dedup loop of `processedLogs`
(`src/unnamed/part_001`, lines 618-641): first-seen IPs are kept and
tracked; seen IPs are kept (and the reference point updated) exactly when
the Haversine distance to the reference exceeds 0.05 km or the record
carries an image. -/
noncomputable def dedupStep (acc : List LogEntry × List (String × IpRef)) (log : LogEntry) :
    List LogEntry × List (String × IpRef) :=
  let ip := jsOrOpt log.ip_address "Unknown"
  match trackerFind acc.2 ip with
  | none =>
      (acc.1 ++ [log], trackerSet acc.2 ip (log.latitude, log.longitude))
  | some lastLoc =>
      if JsNum.gtR (calculateDistance log.latitude log.longitude lastLoc.1 lastLoc.2) 0.05 ∨
          log.image_data ≠ none then
        (acc.1 ++ [log], trackerSet acc.2 ip (log.latitude, log.longitude))
      else acc

/-- Source: `processedLogs` (`src/unnamed/part_001`, lines 608-644): sort
newest first, then iterate, deduplicating per IP. -/
noncomputable def processedLogs (logs : List LogEntry) : List LogEntry :=
  ((List.insertionSort byNewest logs).foldl dedupStep ([], [])).1

/-- A per-device group (`GroupedDevice` in `src/components/AdminPanel.tsx`).
`images` holds `(url, timestamp)` pairs. -/
structure GroupedDevice : Type where
  device_id : String
  latest_log : LogEntry
  history : List LogEntry
  images : List (String × ℕ)
  ip_address : String
  device_info : Option DeviceInfo

/-- The in-place mutation of `groups[log.device_id]` performed by one
iteration of the grouping fold (`devices` in
`src/components/AdminPanel.tsx`, lines 46-63), as a function on the
matching group: set `latest_log`, append to `history`, collect the image
if present, refresh `device_info` if present. -/
def updateGroup (log : LogEntry) (g : GroupedDevice) : GroupedDevice :=
  if g.device_id = log.device_id then
    { g with
        latest_log := log
        history := g.history ++ [log]
        images := g.images ++
          (match log.image_data with
            | some u => [(u, log.created_at)]
            | none => [])
        device_info :=
          match log.device_info with
          | some d => some d
          | none => g.device_info }
  else g

/-- One iteration of the grouping fold (`devices` in
`src/components/AdminPanel.tsx`, lines 35-64): create the (empty) group on
first sight of a device id, then apply the mutation to the matching
group. -/
def addLog (gs : List GroupedDevice) (log : LogEntry) : List GroupedDevice :=
  let gs1 :=
    if gs.any (fun g => g.device_id == log.device_id) then gs
    else
      gs ++ [⟨log.device_id, log, [], [], jsOrOpt log.ip_address "Unknown", log.device_info⟩]
  gs1.map (updateGroup log)

/-- The final comparator of `devices`:
`(a, b) => new Date(b.latest_log.created_at) - new Date(a.latest_log.created_at)`
(most recently active device first). -/
def byLatestNewest (a b : GroupedDevice) : Prop :=
  b.latest_log.created_at ≤ a.latest_log.created_at

instance : DecidableRel byLatestNewest := fun _ _ => Nat.decLe _ _

instance : IsTotal GroupedDevice byLatestNewest :=
  ⟨fun a b => by unfold byLatestNewest; exact Nat.le_total _ _⟩

instance : IsTrans GroupedDevice byLatestNewest :=
  ⟨fun a b c h1 h2 => by unfold byLatestNewest at *; exact Nat.le_trans h2 h1⟩

/-- Source: `devices` (`src/components/AdminPanel.tsx`, lines 28-70): sort
the records oldest first, fold them into per-device groups (object key
insertion order = first-occurrence order), and present the groups most
recently active first. -/
def devices (logs : List LogEntry) : List GroupedDevice :=
  List.insertionSort byLatestNewest ((List.insertionSort byOldest logs).foldl addLog [])

/-- Position source (`src/unnamed/part_000`, `UserLocation.source`). -/
inductive Src : Type
  | ip
  | gps
deriving DecidableEq

/-- Position (`src/unnamed/part_000`, `UserLocation`). -/
structure UserLocation : Type where
  lat : JsNum
  lng : JsNum
  accuracy : Option ℝ
  timestamp : ℕ
  source : Option Src
  ip : Option String

/-- A JavaScript value extracted by a provider transform: a number, or a
value of any other type. -/
inductive JsVal : Type
  | jnum (n : JsNum)
  | jother

/-- Outcome of one provider iteration of `getIpLocation`, as observable by
the loop body: `error` when the fetch rejected, the response was not ok,
or the transform threw; otherwise the extracted `lat`, `lng` and `ip`
fields. -/
inductive ProviderAttempt : Type
  | error
  | extracted (lat lng : JsVal) (ip : Option String)

/-- The validity test of `src/unnamed/part_002`, line 67:
`typeof v === 'number' && !isNaN(v)`.  Note `Infinity` passes it. -/
def validNum : JsVal → Option JsNum
  | .jnum JsNum.nan => none
  | .jnum n => some n
  | .jother => none

/-- The hard-coded failsafe Position of `getIpLocation`
(`src/unnamed/part_002`, lines 82-89). -/
def ipFallback (now : ℕ) : UserLocation :=
  ⟨JsNum.fin (-6.2088), JsNum.fin 106.8456, some 10000, now, some Src.ip, some "127.0.0.1"⟩

/-- Source: `getIpLocation` (`src/unnamed/part_002`, lines 36-90).  The
providers are tried strictly in order; the first whose extracted `lat` and
`lng` are numbers and not `NaN` is wrapped with `accuracy = 5000` and
`source = 'ip'`; if all fail the failsafe is returned.  `now` models
`Date.now()`. -/
def getIpLocation : List ProviderAttempt → ℕ → UserLocation
  | [], now => ipFallback now
  | .error :: rest, now => getIpLocation rest now
  | .extracted lat lng ip :: rest, now =>
      match validNum lat, validNum lng with
      | some la, some ln => ⟨la, ln, some 5000, now, some Src.ip, ip⟩
      | _, _ => getIpLocation rest now

/-- JavaScript `a || b || c` on strings, with `b` possibly absent
(`undefined` and `''` are falsy). -/
def jsOr2 (a : String) (b : Option String) (c : String) : String :=
  if a = "" then
    match b with
    | some s => if s = "" then c else s
    | none => c
  else a

/-- Effects observable around `saveLocationToBackend`'s return, in
program order.  `localPostStarted` is the fire-and-forget `fetch` to
`/api/capture` (its completion is never awaited before the return);
`remoteInsertAwaited ok` is the `await`ed Supabase insert. -/
inductive SyncEvent : Type
  | localPostStarted
  | remoteInsertAwaited (ok : Bool)
  | returned
deriving DecidableEq

/-- Environment of one `saveLocationToBackend` call: the generated
`crypto.randomUUID()`, the clock, whether Supabase is configured, and
whether the insert succeeds. -/
structure SaveEnv : Type where
  uuid : String
  now : ℕ
  isSupabaseConfigured : Bool
  insertOk : Bool

/-- Source: `saveLocationToBackend` (`src/unnamed/part_002`, lines 92-163).
Builds `newEntry` with a fresh id, `created_at = now` and status
`local_simulation`; fires the local `/api/capture` post without awaiting
it; when Supabase is configured, awaits the insert and flips the status to
`synced` on success (logging the structured error otherwise); returns the
entry together with the trace of effects up to the return. -/
def saveLocationToBackend (location : UserLocation) (deviceId : String)
    (imageData : Option String) (currentIp : String) (deviceInfo : Option DeviceInfo)
    (env : SaveEnv) : LogEntry × List SyncEvent :=
  let newEntry : LogEntry :=
    ⟨env.uuid, location.lat, location.lng, deviceId,
      some (jsOr2 currentIp location.ip "Unknown"), imageData, deviceInfo, env.now,
      SyncStatus.local_simulation⟩
  if env.isSupabaseConfigured then
    if env.insertOk then
      ({ newEntry with status := SyncStatus.synced },
        [SyncEvent.localPostStarted, SyncEvent.remoteInsertAwaited true, SyncEvent.returned])
    else
      (newEntry,
        [SyncEvent.localPostStarted, SyncEvent.remoteInsertAwaited false, SyncEvent.returned])
  else
    (newEntry, [SyncEvent.localPostStarted, SyncEvent.returned])

/-- Permission state of the App (`'idle' | 'tracking' | 'denied'`,
`src/unnamed/part_003`, line 16). -/
inductive PermState : Type
  | idle
  | tracking
  | denied
deriving DecidableEq

/-- One bundle submitted by `handleDataCapture`: the position, the
optional camera frame, the device fingerprint and the device id. -/
structure Snapshot : Type where
  position : UserLocation
  image : Option String
  deviceInfo : DeviceInfo
  deviceId : String

/-- App component state: the React state and refs of
`src/unnamed/part_003`. -/
structure AppState : Type where
  perm : PermState
  watching : Bool
  timerOn : Bool
  cameraOn : Bool
  lastLoc : Option UserLocation
  deviceId : String
  deviceInfo : DeviceInfo

/-- The callbacks interleaved by the single-threaded scheduler while
tracking: a successful fix from the geolocation watch (which always
carries `source = 'gps'`), a geolocation error with its code, and a tick
of the 5-second capture interval (carrying the frame `captureImage()`
returns at that moment, if any). -/
inductive AppEvent : Type
  | geoFix (lat lng : ℝ) (accuracy : ℝ) (ts : ℕ) (frame : Option String)
  | geoError (code : ℕ)
  | tick (frame : Option String)

/-- Source: `startTracking` (`src/unnamed/part_003`, lines 178-247).
Camera acquisition is attempted first and its failure only logged
(tracking proceeds camera-less); then the permission state becomes
`tracking` and the geolocation watch and the 5-second interval are
started. -/
def startTracking (cameraOk : Bool) (s : AppState) : AppState :=
  { s with
      cameraOn := cameraOk
      perm := PermState.tracking
      watching := true
      timerOn := true }

/-- Source: `handleDataCapture` (`src/unnamed/part_003`, lines 147-175),
restricted to its submission decision: a record is submitted exactly when
the location is GPS-sourced or a frame was captured. -/
def handleDataCapture (s : AppState) (loc : UserLocation) (frame : Option String) :
    Option Snapshot :=
  if loc.source = some Src.gps ∨ frame ≠ none then
    some ⟨loc, frame, s.deviceInfo, s.deviceId⟩
  else none

/-- One scheduler callback of the tracking loop (`src/unnamed/part_003`):
a GPS fix writes the shared `location` cell (last-write-wins) and
immediately submits a capture; a geolocation error is fatal exactly for
code 1 (permission denied) and otherwise only logged, leaving the watch
running; a timer tick reads the current value of the cell and submits a
capture iff it holds a GPS-sourced position (lines 225-241). -/
def appStep (s : AppState) : AppEvent → AppState × Option Snapshot
  | AppEvent.geoFix lat lng acc ts frame =>
      let loc : UserLocation := ⟨JsNum.fin lat, JsNum.fin lng, some acc, ts, some Src.gps, none⟩
      ({ s with lastLoc := some loc }, handleDataCapture s loc frame)
  | AppEvent.geoError c =>
      (if c = 1 then { s with perm := PermState.denied } else s, none)
  | AppEvent.tick frame =>
      match s.lastLoc with
      | some loc =>
          if loc.source = some Src.gps then (s, handleDataCapture s loc frame)
          else (s, none)
      | none => (s, none)

/-- Run a sequence of callbacks from a state, collecting the submitted
snapshots in order. -/
def appRun (s : AppState) : List AppEvent → AppState × List Snapshot
  | [] => (s, [])
  | e :: t =>
      let r := appStep s e
      let rest := appRun r.1 t
      (rest.1, r.2.toList ++ rest.2)

/-- Invariant of the grouping fold: after folding the chronological prefix
`pre`, the group keys are exactly the device ids seen so far (without
duplicates), and each group's `history`, `latest_log` and `images` are
determined by `pre`. -/
def GroupInv (pre : List LogEntry) (gs : List GroupedDevice) : Prop :=
  (gs.map GroupedDevice.device_id).Nodup ∧
  (∀ d, d ∈ gs.map GroupedDevice.device_id ↔ d ∈ pre.map LogEntry.device_id) ∧
  ∀ g ∈ gs,
    g.history = pre.filter (fun l => l.device_id == g.device_id) ∧
    g.history.getLast? = some g.latest_log ∧
    g.images = g.history.filterMap (fun l => l.image_data.map (fun u => (u, l.created_at)))

/-! ### Concrete inputs used by counterexamples and spec examples -/

/-- A concrete device fingerprint used by concrete runs. -/
def sampleInfo : DeviceInfo :=
  ⟨"UA", "Linux", "1920x1080", "800x600", "en", none, none, none, false, none⟩

/-- A concrete initial App state (nothing started, empty cell). -/
def initState : AppState :=
  ⟨PermState.idle, false, false, false, none, "user_x1", sampleInfo⟩

/-- A concrete GPS position used by concrete runs. -/
def gpsLoc : UserLocation :=
  ⟨JsNum.fin (-6.19), JsNum.fin 106.82, some 15, 777, some Src.gps, none⟩

/-- A concrete IP-sourced position used by concrete runs. -/
def ipLoc : UserLocation :=
  ⟨JsNum.fin (-6.2), JsNum.fin 106.8, some 5000, 500, some Src.ip, some "203.0.113.9"⟩

/-- A concrete IP used by the dedup examples. -/
def ipA : String := "203.0.113.7"

/-- Spec example, ~556 m pair: the newer record, at `(-6.2088, 106.8456)`. -/
def exA1 : LogEntry :=
  ⟨"idA1", JsNum.fin (-6.2088), JsNum.fin 106.8456, "devA", some ipA, none, none, 1000,
    SyncStatus.synced⟩

/-- Spec example, ~556 m pair: the older record, at `(-6.2038, 106.8456)`. -/
def exA2 : LogEntry :=
  ⟨"idA2", JsNum.fin (-6.2038), JsNum.fin 106.8456, "devA", some ipA, none, none, 0,
    SyncStatus.synced⟩

/-- Spec example, ~7 m pair: the newer record, at `(-6.20880, 106.84560)`. -/
def exB1 : LogEntry :=
  ⟨"idB1", JsNum.fin (-6.20880), JsNum.fin 106.84560, "devB", some ipA, none, none, 1000,
    SyncStatus.synced⟩

/-- Spec example, ~7 m pair: the older record, at `(-6.20885, 106.84565)`,
without an image. -/
def exB2 : LogEntry :=
  ⟨"idB2", JsNum.fin (-6.20885), JsNum.fin 106.84565, "devB", some ipA, none, none, 0,
    SyncStatus.synced⟩

/-- Spec example, ~7 m pair: the older record with an image. -/
def exB2img : LogEntry :=
  ⟨"idB2", JsNum.fin (-6.20885), JsNum.fin 106.84565, "devB", some ipA, some "img.jpg", none, 0,
    SyncStatus.synced⟩

/-- Unknown-IP record (no `ip_address`), newer, no image. -/
def exU1 : LogEntry :=
  ⟨"idU1", JsNum.fin (-6.2088), JsNum.fin 106.8456, "devU", none, none, none, 1000,
    SyncStatus.synced⟩

/-- Unknown-IP record (no `ip_address`), older, same position, no image. -/
def exU2 : LogEntry :=
  ⟨"idU2", JsNum.fin (-6.2088), JsNum.fin 106.8456, "devU2", none, none, none, 0,
    SyncStatus.synced⟩

/-- The group that grouping mode builds from the single record `exA1`. -/
def exGroupA : GroupedDevice :=
  ⟨"devA", exA1, [exA1], [], ipA, none⟩

/-- A record whose latitude is `NaN` (non-finite coordinates). -/
def exNan : LogEntry :=
  ⟨"idN", JsNum.nan, JsNum.fin 106.8456, "devN", some "198.51.100.9", none, none, 5,
    SyncStatus.synced⟩

/-! ## Theorems -/

namespace JsNum

@[simp] theorem add_fin (x y : ℝ) : add (fin x) (fin y) = fin (x + y) := rfl

@[simp] theorem sub_fin (x y : ℝ) : sub (fin x) (fin y) = fin (x - y) := rfl

@[simp] theorem mul_fin (x y : ℝ) : mul (fin x) (fin y) = fin (x * y) := rfl

@[simp] theorem sin_fin (x : ℝ) : sin (fin x) = fin (Real.sin x) := rfl

@[simp] theorem cos_fin (x : ℝ) : cos (fin x) = fin (Real.cos x) := rfl

@[simp] theorem div_fin_two (x : ℝ) : div (fin x) (fin 2) = fin (x / 2) := by
  simp [div]

@[simp] theorem sqrt_fin_of_nonneg {x : ℝ} (h : 0 ≤ x) :
    sqrt (fin x) = fin (Real.sqrt x) := by
  simp [sqrt, not_lt.mpr h]

@[simp] theorem atan2_fin (y x : ℝ) : atan2 (fin y) (fin x) = fin (atan2R y x) := rfl

@[simp] theorem gtR_fin (x r : ℝ) : gtR (fin x) r ↔ r < x := Iff.rfl

end JsNum

theorem calculateDistance_fin (lat1 lon1 lat2 lon2 : ℝ) :
    calculateDistance (JsNum.fin lat1) (JsNum.fin lon1) (JsNum.fin lat2) (JsNum.fin lon2) =
      havTail (havA lat1 lon1 lat2 lon2) := by
  simp [calculateDistance, havTail, havA, deg2rad, JsNum.sub, JsNum.mul, JsNum.div,
    JsNum.sin, JsNum.cos, JsNum.add, mul_comm, mul_assoc, mul_left_comm]

theorem havA_symm (lat1 lon1 lat2 lon2 : ℝ) :
    havA lat1 lon1 lat2 lon2 = havA lat2 lon2 lat1 lon1 := by
  have hs : ∀ u v : ℝ,
      Real.sin ((u - v) * (Real.pi / 180) / 2) =
        -Real.sin ((v - u) * (Real.pi / 180) / 2) := by
    intro u v
    have h : (u - v) * (Real.pi / 180) / 2 = -((v - u) * (Real.pi / 180) / 2) := by ring
    rw [h, Real.sin_neg]
  unfold havA
  rw [hs lat2 lat1, hs lon2 lon1]
  ring

theorem havA_self (lat lon : ℝ) : havA lat lon lat lon = 0 := by
  unfold havA
  simp

theorem havTail_zero : havTail 0 = JsNum.fin 0 := by
  have hA : JsNum.atan2R 0 1 = 0 := by
    unfold JsNum.atan2R
    rw [if_pos (by norm_num : (0:ℝ) < (1:ℝ))]
    simp [Real.arctan_zero]
  unfold havTail
  norm_num [JsNum.sqrt_fin_of_nonneg, Real.sqrt_zero, Real.sqrt_one, JsNum.atan2_fin, hA,
    JsNum.mul_fin]

theorem calculateDistance_self (lat lon : ℝ) :
    calculateDistance (JsNum.fin lat) (JsNum.fin lon) (JsNum.fin lat) (JsNum.fin lon) =
      JsNum.fin 0 := by
  rw [calculateDistance_fin, havA_self, havTail_zero]

theorem calculateDistance_symm (lat1 lon1 lat2 lon2 : ℝ) :
    calculateDistance (JsNum.fin lat1) (JsNum.fin lon1) (JsNum.fin lat2) (JsNum.fin lon2) =
      calculateDistance (JsNum.fin lat2) (JsNum.fin lon2) (JsNum.fin lat1) (JsNum.fin lon1) := by
  rw [calculateDistance_fin, calculateDistance_fin, havA_symm]

/-- C9: the Haversine distance function of the dedup view is symmetric and
zero on identical points: for all (finite) coordinate pairs `A` and `B`,
`calculateDistance(A, A) = 0` and
`calculateDistance(A, B) = calculateDistance(B, A)`. -/
theorem claim_c9_haversine_symm_zero :
    (∀ lat lon : ℝ,
        calculateDistance (JsNum.fin lat) (JsNum.fin lon) (JsNum.fin lat) (JsNum.fin lon) =
          JsNum.fin 0) ∧
      (∀ lat1 lon1 lat2 lon2 : ℝ,
        calculateDistance (JsNum.fin lat1) (JsNum.fin lon1)
            (JsNum.fin lat2) (JsNum.fin lon2) =
          calculateDistance (JsNum.fin lat2) (JsNum.fin lon2)
            (JsNum.fin lat1) (JsNum.fin lon1)) :=
  ⟨calculateDistance_self, calculateDistance_symm⟩

theorem arctan_le_self_of_nonneg {x : ℝ} (hx : 0 ≤ x) : Real.arctan x ≤ x := by
  rcases eq_or_lt_of_le hx with h | h
  · rw [← h, Real.arctan_zero]
  · have h1 : 0 < Real.arctan x := by
      have := Real.arctan_strictMono h
      rwa [Real.arctan_zero] at this
    have h3 := Real.lt_tan h1 (Real.arctan_lt_pi_div_two x)
    rw [Real.tan_arctan] at h3
    exact le_of_lt h3

theorem havTail_sin_sq (t : ℝ) (h0 : 0 ≤ t) (h2 : t < Real.pi / 2) :
    havTail (Real.sin t * Real.sin t) = JsNum.fin (6371 * (2 * t)) := by
  have hπ := Real.pi_pos
  have hs0 : 0 ≤ Real.sin t :=
    Real.sin_nonneg_of_nonneg_of_le_pi h0 (le_of_lt (h2.trans (by linarith)))
  have hpy := Real.sin_sq_add_cos_sq t
  have ha0 : 0 ≤ Real.sin t * Real.sin t := mul_nonneg hs0 hs0
  have h1a : (1:ℝ) - Real.sin t * Real.sin t = Real.cos t * Real.cos t := by
    ring_nf
    ring_nf at hpy
    linarith
  have hc0 : 0 < Real.cos t :=
    Real.cos_pos_of_mem_Ioo ⟨by linarith, h2⟩
  unfold havTail
  rw [JsNum.sqrt_fin_of_nonneg ha0, JsNum.sqrt_fin_of_nonneg (by nlinarith),
    Real.sqrt_mul_self hs0, h1a, Real.sqrt_mul_self (le_of_lt hc0), JsNum.atan2_fin]
  have hat : JsNum.atan2R (Real.sin t) (Real.cos t) = t := by
    unfold JsNum.atan2R
    rw [if_pos hc0, ← Real.tan_eq_sin_div_cos, Real.arctan_tan (by linarith) h2]
  rw [hat, JsNum.mul_fin, JsNum.mul_fin]

theorem havTail_small (a : ℝ) (h0 : 0 ≤ a) (h : a ≤ 1 / 10 ^ 12) :
    ∃ d : ℝ, havTail a = JsNum.fin d ∧ d ≤ 0.05 := by
  have h1a0 : (0:ℝ) ≤ 1 - a := by norm_num at h ⊢; linarith
  have hsq1 : Real.sqrt a ≤ 1 / 10 ^ 6 := by
    have := Real.sqrt_le_sqrt h
    rwa [show (1:ℝ) / 10 ^ 12 = (1 / 10 ^ 6) ^ 2 by norm_num,
      Real.sqrt_sq (by norm_num : (0:ℝ) ≤ 1 / 10 ^ 6)] at this
  have hsq2 : (0.9:ℝ) ≤ Real.sqrt (1 - a) := by
    have h81 : (0.81:ℝ) ≤ 1 - a := by norm_num at h ⊢; linarith
    have := Real.sqrt_le_sqrt h81
    rwa [show (0.81:ℝ) = 0.9 ^ 2 by norm_num,
      Real.sqrt_sq (by norm_num : (0:ℝ) ≤ 0.9)] at this
  have hsqpos : (0:ℝ) < Real.sqrt (1 - a) := lt_of_lt_of_le (by norm_num) hsq2
  have hq0 : 0 ≤ Real.sqrt a / Real.sqrt (1 - a) :=
    div_nonneg (Real.sqrt_nonneg a) (le_of_lt hsqpos)
  have hq : Real.sqrt a / Real.sqrt (1 - a) ≤ (1 / 10 ^ 6) / 0.9 :=
    div_le_div₀ (by norm_num) hsq1 (by norm_num) hsq2
  have hat0 : 0 ≤ JsNum.atan2R (Real.sqrt a) (Real.sqrt (1 - a)) := by
    unfold JsNum.atan2R
    rw [if_pos hsqpos]
    have := Real.arctan_strictMono.monotone hq0
    rwa [Real.arctan_zero] at this
  have hat : JsNum.atan2R (Real.sqrt a) (Real.sqrt (1 - a)) ≤ (1 / 10 ^ 6) / 0.9 := by
    unfold JsNum.atan2R
    rw [if_pos hsqpos]
    exact le_trans (arctan_le_self_of_nonneg hq0) hq
  refine ⟨6371 * (2 * JsNum.atan2R (Real.sqrt a) (Real.sqrt (1 - a))), ?_, ?_⟩
  · unfold havTail
    rw [JsNum.sqrt_fin_of_nonneg h0, JsNum.sqrt_fin_of_nonneg h1a0, JsNum.atan2_fin,
      JsNum.mul_fin, JsNum.mul_fin]
  · nlinarith

theorem dedupStep_not_seen (acc : List LogEntry × List (String × IpRef)) (log : LogEntry)
    (h : trackerFind acc.2 (jsOrOpt log.ip_address "Unknown") = none) :
    dedupStep acc log =
      (acc.1 ++ [log],
        trackerSet acc.2 (jsOrOpt log.ip_address "Unknown") (log.latitude, log.longitude)) := by
  simp only [dedupStep]
  rw [h]

theorem dedupStep_seen_keep (acc : List LogEntry × List (String × IpRef)) (log : LogEntry)
    (ref : IpRef)
    (h : trackerFind acc.2 (jsOrOpt log.ip_address "Unknown") = some ref)
    (hkeep : JsNum.gtR (calculateDistance log.latitude log.longitude ref.1 ref.2) 0.05 ∨
      log.image_data ≠ none) :
    dedupStep acc log =
      (acc.1 ++ [log],
        trackerSet acc.2 (jsOrOpt log.ip_address "Unknown") (log.latitude, log.longitude)) := by
  simp only [dedupStep]
  rw [h]
  exact if_pos hkeep

theorem dedupStep_seen_drop (acc : List LogEntry × List (String × IpRef)) (log : LogEntry)
    (ref : IpRef)
    (h : trackerFind acc.2 (jsOrOpt log.ip_address "Unknown") = some ref)
    (hdrop : ¬(JsNum.gtR (calculateDistance log.latitude log.longitude ref.1 ref.2) 0.05 ∨
      log.image_data ≠ none)) :
    dedupStep acc log = acc := by
  simp only [dedupStep]
  rw [h]
  exact if_neg hdrop

theorem havA_exA :
    havA (-6.2038) 106.8456 (-6.2088) 106.8456 =
      Real.sin (Real.pi / 72000) * Real.sin (Real.pi / 72000) := by
  unfold havA
  have e1 : ((-6.2088:ℝ) - -6.2038) * (Real.pi / 180) / 2 = -(Real.pi / 72000) := by
    ring
  have e2 : ((106.8456:ℝ) - 106.8456) * (Real.pi / 180) / 2 = 0 := by ring
  rw [e1, e2, Real.sin_neg, Real.sin_zero]
  ring

theorem dist_exA_gt :
    JsNum.gtR
      (calculateDistance (JsNum.fin (-6.2038)) (JsNum.fin 106.8456)
        (JsNum.fin (-6.2088)) (JsNum.fin 106.8456)) 0.05 := by
  have hπ := Real.pi_pos
  have h3 := Real.pi_gt_three
  rw [calculateDistance_fin, havA_exA,
    havTail_sin_sq (Real.pi / 72000) (by positivity) (by nlinarith)]
  rw [JsNum.gtR_fin]
  nlinarith

theorem havA_exB_bounds :
    0 ≤ havA (-6.20885) 106.84565 (-6.20880) 106.84560 ∧
      havA (-6.20885) 106.84565 (-6.20880) 106.84560 ≤ 1 / 10 ^ 12 := by
  have hπ := Real.pi_pos
  have hπ315 : Real.pi < 3.15 := Real.pi_lt_d2
  unfold havA
  have e1 : ((-6.20880:ℝ) - -6.20885) * (Real.pi / 180) / 2 = Real.pi / 7200000 := by
    ring
  have e2 : ((106.84560:ℝ) - 106.84565) * (Real.pi / 180) / 2 = -(Real.pi / 7200000) := by
    ring
  rw [e1, e2, Real.sin_neg]
  have hu0 : (0:ℝ) < Real.pi / 7200000 := by positivity
  have huπ : Real.pi / 7200000 ≤ Real.pi := by nlinarith
  have hsin0 : 0 ≤ Real.sin (Real.pi / 7200000) :=
    Real.sin_nonneg_of_nonneg_of_le_pi (le_of_lt hu0) huπ
  have hsinu : Real.sin (Real.pi / 7200000) ≤ Real.pi / 7200000 := le_of_lt (Real.sin_lt hu0)
  have hub : Real.pi / 7200000 ≤ 3.15 / 7200000 := by linarith
  have hc1 : 0 < Real.cos ((-6.20885:ℝ) * (Real.pi / 180)) := by
    apply Real.cos_pos_of_mem_Ioo
    constructor <;> nlinarith
  have hc2 : 0 < Real.cos ((-6.20880:ℝ) * (Real.pi / 180)) := by
    apply Real.cos_pos_of_mem_Ioo
    constructor <;> nlinarith
  have hc1' : Real.cos ((-6.20885:ℝ) * (Real.pi / 180)) ≤ 1 := Real.cos_le_one _
  have hc2' : Real.cos ((-6.20880:ℝ) * (Real.pi / 180)) ≤ 1 := Real.cos_le_one _
  have hsq : Real.sin (Real.pi / 7200000) * Real.sin (Real.pi / 7200000) ≤
      (3.15 / 7200000) * (3.15 / 7200000) := by nlinarith
  have hccpos : 0 < Real.cos ((-6.20885:ℝ) * (Real.pi / 180)) *
      Real.cos ((-6.20880:ℝ) * (Real.pi / 180)) := mul_pos hc1 hc2
  have hcc : Real.cos ((-6.20885:ℝ) * (Real.pi / 180)) *
      Real.cos ((-6.20880:ℝ) * (Real.pi / 180)) ≤ 1 := by nlinarith
  have hss : 0 ≤ Real.sin (Real.pi / 7200000) * Real.sin (Real.pi / 7200000) :=
    mul_nonneg hsin0 hsin0
  have hkey : (0:ℝ) ≤
      (1 - Real.cos ((-6.20885:ℝ) * (Real.pi / 180)) *
          Real.cos ((-6.20880:ℝ) * (Real.pi / 180))) *
        (Real.sin (Real.pi / 7200000) * Real.sin (Real.pi / 7200000)) :=
    mul_nonneg (by linarith) hss
  constructor
  · nlinarith [mul_nonneg (le_of_lt hccpos) hss]
  · nlinarith [hsq, hkey, hss]

theorem dist_exB_not_gt :
    ¬ JsNum.gtR
      (calculateDistance (JsNum.fin (-6.20885)) (JsNum.fin 106.84565)
        (JsNum.fin (-6.20880)) (JsNum.fin 106.84560)) 0.05 := by
  obtain ⟨h0, hle⟩ := havA_exB_bounds
  obtain ⟨d, hd, hdle⟩ := havTail_small _ h0 hle
  rw [calculateDistance_fin, hd, JsNum.gtR_fin]
  linarith

theorem sort_two_newest (a b : LogEntry) (h : b.created_at ≤ a.created_at) :
    List.insertionSort byNewest [a, b] = [a, b] := by
  simp [List.insertionSort, List.orderedInsert, byNewest, h]

theorem processedLogs_pair (a b : LogEntry) (ht : b.created_at ≤ a.created_at)
    (hip : jsOrOpt b.ip_address "Unknown" = jsOrOpt a.ip_address "Unknown") :
    ((JsNum.gtR (calculateDistance b.latitude b.longitude a.latitude a.longitude) 0.05 ∨
        b.image_data ≠ none) →
      processedLogs [a, b] = [a, b]) ∧
    (¬(JsNum.gtR (calculateDistance b.latitude b.longitude a.latitude a.longitude) 0.05 ∨
        b.image_data ≠ none) →
      processedLogs [a, b] = [a]) := by
  have hstep1 : dedupStep ([], []) a =
      ([a], [(jsOrOpt a.ip_address "Unknown", (a.latitude, a.longitude))]) := by
    rw [dedupStep_not_seen ([], []) a rfl]
    rfl
  have hfind : trackerFind
      ([a], [(jsOrOpt a.ip_address "Unknown", (a.latitude, a.longitude))]).2
      (jsOrOpt b.ip_address "Unknown") = some (a.latitude, a.longitude) := by
    rw [hip]
    simp [trackerFind]
  constructor
  · intro hkeep
    unfold processedLogs
    rw [sort_two_newest a b ht]
    show (dedupStep (dedupStep ([], []) a) b).1 = [a, b]
    rw [hstep1, dedupStep_seen_keep _ b (a.latitude, a.longitude) hfind hkeep]
    rfl
  · intro hdrop
    unfold processedLogs
    rw [sort_two_newest a b ht]
    show (dedupStep (dedupStep ([], []) a) b).1 = [a]
    rw [hstep1, dedupStep_seen_drop _ b (a.latitude, a.longitude) hfind hdrop]

theorem processedLogs_exA : processedLogs [exA1, exA2] = [exA1, exA2] :=
  (processedLogs_pair exA1 exA2 (by decide) rfl).1 (Or.inl dist_exA_gt)

theorem processedLogs_exB : processedLogs [exB1, exB2] = [exB1] :=
  (processedLogs_pair exB1 exB2 (by decide) rfl).2 (by
    rw [not_or]
    refine ⟨dist_exB_not_gt, ?_⟩
    simp [exB2])

theorem processedLogs_exBimg : processedLogs [exB1, exB2img] = [exB1, exB2img] :=
  (processedLogs_pair exB1 exB2img (by decide) rfl).1 (Or.inr (by simp [exB2img]))

theorem processedLogs_exU : processedLogs [exU1, exU2] = [exU1] :=
  (processedLogs_pair exU1 exU2 (by decide) rfl).2 (by
    rw [not_or]
    constructor
    · rw [show calculateDistance exU2.latitude exU2.longitude exU1.latitude exU1.longitude =
          JsNum.fin 0 from calculateDistance_self (-6.2088) 106.8456, JsNum.gtR_fin]
      norm_num
    · simp [exU2])

theorem processedLogs_exNan : processedLogs [exNan] = [exNan] := by
  unfold processedLogs
  show (dedupStep ([], []) exNan).1 = [exNan]
  rw [dedupStep_not_seen ([], []) exNan rfl]
  rfl

/-- C3: deduplication mode folds the records newest to oldest, tracked per
distinct ip (missing ips keyed under the `'Unknown'` sentinel): a
first-seen ip is kept and its position stored as the reference point; a
later record of a seen ip is kept — and the reference point updated to its
position — exactly when its Haversine distance (Earth radius 6371 km) from
the reference exceeds 0.05 km or it carries an image, and is otherwise
discarded.  In particular two same-IP records ~556 m apart
(`(-6.2038, 106.8456)` vs `(-6.2088, 106.8456)`) are both kept, while a
second record ~7 m from the reference (`(-6.20885, 106.84565)` vs
`(-6.20880, 106.84560)`) is dropped unless it carries an image. -/
theorem claim_c3_dedup_newest_first :
    (∀ (acc : List LogEntry × List (String × IpRef)) (log : LogEntry),
      (trackerFind acc.2 (jsOrOpt log.ip_address "Unknown") = none →
        dedupStep acc log =
          (acc.1 ++ [log],
            trackerSet acc.2 (jsOrOpt log.ip_address "Unknown")
              (log.latitude, log.longitude))) ∧
      ∀ ref : IpRef, trackerFind acc.2 (jsOrOpt log.ip_address "Unknown") = some ref →
        ((JsNum.gtR (calculateDistance log.latitude log.longitude ref.1 ref.2) 0.05 ∨
            log.image_data ≠ none) →
          dedupStep acc log =
            (acc.1 ++ [log],
              trackerSet acc.2 (jsOrOpt log.ip_address "Unknown")
                (log.latitude, log.longitude))) ∧
        (¬(JsNum.gtR (calculateDistance log.latitude log.longitude ref.1 ref.2) 0.05 ∨
            log.image_data ≠ none) →
          dedupStep acc log = acc)) ∧
    processedLogs [exA1, exA2] = [exA1, exA2] ∧
    processedLogs [exB1, exB2] = [exB1] ∧
    processedLogs [exB1, exB2img] = [exB1, exB2img] := by
  refine ⟨?_, processedLogs_exA, processedLogs_exB, processedLogs_exBimg⟩
  intro acc log
  exact ⟨fun h => dedupStep_not_seen acc log h,
    fun ref h => ⟨fun hk => dedupStep_seen_keep acc log ref h hk,
      fun hd => dedupStep_seen_drop acc log ref h hd⟩⟩

/-- Witness for C3 at a concrete input: the first record of a fresh ip is
kept and its position becomes the reference point. -/
theorem claim_c3_witness :
    dedupStep ([], []) exA1 =
      ([exA1], [("203.0.113.7", (JsNum.fin (-6.2088), JsNum.fin 106.8456))]) := by
  have h := (claim_c3_dedup_newest_first.1 ([], []) exA1).1 rfl
  simpa [exA1, jsOrOpt, ipA, trackerSet] using h

/-- C4 as stated is false: records with the `'Unknown'` sentinel ip are
not exempt from deduplication.  Concretely, `exU2` has no ip (keyed as
`'Unknown'`), yet it is dropped from the output because it lies within
50 m of the previously kept `'Unknown'` record and carries no image. -/
theorem claim_c4_counterexample :
    exU2.ip_address = none ∧ jsOrOpt exU2.ip_address "Unknown" = "Unknown" ∧
      exU2 ∉ processedLogs [exU1, exU2] := by
  refine ⟨rfl, rfl, ?_⟩
  rw [processedLogs_exU]
  intro hmem
  rw [List.mem_singleton] at hmem
  have hc := congrArg LogEntry.created_at hmem
  simp [exU1, exU2] at hc

/-- C4 (amended): records whose ip is missing or the `'Unknown'` sentinel
are not exempt from deduplication; they are all keyed under the single
tracker key `'Unknown'` and deduplicated by the same distance-or-image
rule as any other ip. -/
theorem claim_c4_unknown_behaves_like_any_ip :
    ∀ (acc : List LogEntry × List (String × IpRef)) (log : LogEntry),
      log.ip_address = none ∨ log.ip_address = some "Unknown" →
      (trackerFind acc.2 "Unknown" = none →
        dedupStep acc log =
          (acc.1 ++ [log], trackerSet acc.2 "Unknown" (log.latitude, log.longitude))) ∧
      ∀ ref : IpRef, trackerFind acc.2 "Unknown" = some ref →
        ((JsNum.gtR (calculateDistance log.latitude log.longitude ref.1 ref.2) 0.05 ∨
            log.image_data ≠ none) →
          dedupStep acc log =
            (acc.1 ++ [log], trackerSet acc.2 "Unknown" (log.latitude, log.longitude))) ∧
        (¬(JsNum.gtR (calculateDistance log.latitude log.longitude ref.1 ref.2) 0.05 ∨
            log.image_data ≠ none) →
          dedupStep acc log = acc) := by
  intro acc log h
  have hkey : jsOrOpt log.ip_address "Unknown" = "Unknown" := by
    rcases h with h | h <;> simp [jsOrOpt, h]
  refine ⟨fun hn => ?_, fun ref hs => ⟨fun hk => ?_, fun hd => ?_⟩⟩
  · rw [dedupStep_not_seen acc log (by rw [hkey]; exact hn), hkey]
  · rw [dedupStep_seen_keep acc log ref (by rw [hkey]; exact hs) hk, hkey]
  · exact dedupStep_seen_drop acc log ref (by rw [hkey]; exact hs) hd

/-- Witness for the amended C4 at a concrete input: a second `'Unknown'`
record at the same position without an image is dropped. -/
theorem claim_c4_witness :
    dedupStep ([exU1], [("Unknown", (JsNum.fin (-6.2088), JsNum.fin 106.8456))]) exU2 =
      ([exU1], [("Unknown", (JsNum.fin (-6.2088), JsNum.fin 106.8456))]) := by
  have hdrop : ¬(JsNum.gtR (calculateDistance exU2.latitude exU2.longitude
      (JsNum.fin (-6.2088)) (JsNum.fin 106.8456)) 0.05 ∨ exU2.image_data ≠ none) := by
    rw [not_or]
    refine ⟨?_, by simp [exU2]⟩
    rw [show calculateDistance exU2.latitude exU2.longitude
        (JsNum.fin (-6.2088)) (JsNum.fin 106.8456) = JsNum.fin 0 from
      calculateDistance_self (-6.2088) 106.8456, JsNum.gtR_fin]
    norm_num
  exact ((claim_c4_unknown_behaves_like_any_ip
      ([exU1], [("Unknown", (JsNum.fin (-6.2088), JsNum.fin 106.8456))]) exU2
      (Or.inl rfl)).2 (JsNum.fin (-6.2088), JsNum.fin 106.8456)
      (by simp [trackerFind])).2 hdrop

/-- C8 as stated is false: there is no ingress validation of coordinates.
A record whose latitude is `NaN` passes through deduplication mode and
appears in its output. -/
theorem claim_c8_counterexample :
    exNan.latitude = JsNum.nan ∧ processedLogs [exNan] = [exNan] ∧
      exNan ∈ processedLogs [exNan] := by
  refine ⟨rfl, processedLogs_exNan, ?_⟩
  rw [processedLogs_exNan]
  simp

theorem updateGroup_device_id (log : LogEntry) (g : GroupedDevice) :
    (updateGroup log g).device_id = g.device_id := by
  unfold updateGroup
  split <;> rfl

theorem updateGroup_miss (log : LogEntry) (g : GroupedDevice)
    (h : g.device_id ≠ log.device_id) : updateGroup log g = g := if_neg h

theorem imgF_single (log : LogEntry) :
    [log].filterMap (fun l => l.image_data.map (fun u => (u, l.created_at))) =
      (match log.image_data with
        | some u => [(u, log.created_at)]
        | none => []) := by
  cases h : log.image_data <;> simp [h]

theorem mem_of_getLast?_eq {α : Type _} {l : List α} {x : α} (h : l.getLast? = some x) :
    x ∈ l := by
  obtain ⟨hne, heq⟩ := List.mem_getLast?_eq_getLast (Option.mem_def.mpr h)
  rw [heq]
  exact List.getLast_mem hne

theorem groupInv_addLog {pre : List LogEntry} {gs : List GroupedDevice} (log : LogEntry)
    (hinv : GroupInv pre gs) : GroupInv (pre ++ [log]) (addLog gs log) := by
  obtain ⟨hnd, hmem, hprops⟩ := hinv
  have hmapdev : ∀ hs : List GroupedDevice,
      (hs.map (updateGroup log)).map GroupedDevice.device_id =
        hs.map GroupedDevice.device_id := by
    intro hs
    rw [List.map_map]
    exact List.map_congr_left fun g _ => updateGroup_device_id log g
  by_cases hany : gs.any (fun g => g.device_id == log.device_id) = true
  · -- the device id was already seen
    have hal : addLog gs log = gs.map (updateGroup log) := by
      simp only [addLog]
      rw [if_pos hany]
    obtain ⟨g0, hg0, hbeq0⟩ := List.any_eq_true.mp hany
    have hkeymem : log.device_id ∈ gs.map GroupedDevice.device_id :=
      List.mem_map.mpr ⟨g0, hg0, beq_iff_eq.mp hbeq0⟩
    rw [hal]
    refine ⟨?_, ?_, ?_⟩
    · rw [hmapdev]
      exact hnd
    · intro d
      rw [hmapdev, List.map_append, List.mem_append]
      constructor
      · intro hd
        exact Or.inl ((hmem d).mp hd)
      · rintro (hd | hd)
        · exact (hmem d).mpr hd
        · simp only [List.map_cons, List.map_nil, List.mem_singleton] at hd
          rw [hd]
          exact hkeymem
    · intro g' hg'
      obtain ⟨g, hg, rfl⟩ := List.mem_map.mp hg'
      obtain ⟨hh, hl, hi⟩ := hprops g hg
      by_cases hdev : g.device_id = log.device_id
      · simp only [updateGroup, if_pos hdev]
        refine ⟨?_, ?_, ?_⟩
        · rw [List.filter_append, ← hh]
          simp [hdev]
        · exact List.getLast?_concat _
        · rw [List.filterMap_append, ← hi, imgF_single]
      · rw [updateGroup_miss log g hdev]
        refine ⟨?_, hl, hi⟩
        rw [List.filter_append, ← hh]
        have : (log.device_id == g.device_id) = false :=
          beq_eq_false_iff_ne.mpr (fun he => hdev he.symm)
        simp [this]
  · -- first sight of the device id
    have hanyf : gs.any (fun g => g.device_id == log.device_id) = false :=
      Bool.eq_false_iff.mpr hany
    have hnone : ∀ g ∈ gs, (g.device_id == log.device_id) = false := by
      intro g hg
      have := List.any_eq_false.mp hanyf g hg
      simpa using this
    have hkeynot : log.device_id ∉ gs.map GroupedDevice.device_id := by
      intro hk
      obtain ⟨g, hg, he⟩ := List.mem_map.mp hk
      have := hnone g hg
      rw [he] at this
      simp at this
    have hkeynotpre : log.device_id ∉ pre.map LogEntry.device_id := fun hk =>
      hkeynot ((hmem _).mpr hk)
    have hprefilter : pre.filter (fun l => l.device_id == log.device_id) = [] := by
      rw [List.filter_eq_nil_iff]
      intro l hl hbeq
      exact hkeynotpre (List.mem_map.mpr ⟨l, hl, beq_iff_eq.mp (by simpa using hbeq)⟩)
    have hgsfix : gs.map (updateGroup log) = gs :=
      (List.map_congr_left fun g hg =>
        updateGroup_miss log g (by simpa using hnone g hg)).trans (by simp)
    have hal : addLog gs log =
        gs ++ [updateGroup log
          ⟨log.device_id, log, [], [], jsOrOpt log.ip_address "Unknown", log.device_info⟩] := by
      simp only [addLog]
      rw [if_neg hany, List.map_append]
      simp [hgsfix]
    have hupd : updateGroup log
        ⟨log.device_id, log, [], [], jsOrOpt log.ip_address "Unknown", log.device_info⟩ =
        ⟨log.device_id, log, [log],
          (match log.image_data with
            | some u => [(u, log.created_at)]
            | none => []),
          jsOrOpt log.ip_address "Unknown",
          (match log.device_info with
            | some d => some d
            | none => log.device_info)⟩ := by
      simp only [updateGroup, if_pos rfl]
      rfl
    rw [hal, hupd]
    refine ⟨?_, ?_, ?_⟩
    · rw [List.map_append]
      simp only [List.map_cons, List.map_nil]
      rw [List.nodup_append]
      exact ⟨hnd, List.nodup_singleton _, by simpa using hkeynot⟩
    · intro d
      rw [List.map_append, List.mem_append, List.map_append, List.mem_append]
      simp only [List.map_cons, List.map_nil, List.mem_singleton]
      constructor
      · rintro (hd | hd)
        · exact Or.inl ((hmem d).mp hd)
        · exact Or.inr hd
      · rintro (hd | hd)
        · exact Or.inl ((hmem d).mpr hd)
        · exact Or.inr hd
    · intro g' hg'
      rw [List.mem_append, List.mem_singleton] at hg'
      rcases hg' with hg' | rfl
      · obtain ⟨hh, hl, hi⟩ := hprops g' hg'
        have hdev : (log.device_id == g'.device_id) = false := by
          have := hnone g' hg'
          rw [beq_eq_false_iff_ne] at this ⊢
          exact fun he => this he.symm
        refine ⟨?_, hl, hi⟩
        rw [List.filter_append, ← hh]
        simp [hdev]
      · refine ⟨?_, rfl, ?_⟩
        · rw [List.filter_append, hprefilter]
          simp
        · rw [imgF_single]

theorem groupInv_foldl : ∀ (l pre : List LogEntry) (gs : List GroupedDevice),
    GroupInv pre gs → GroupInv (pre ++ l) (l.foldl addLog gs)
  | [], pre, gs, h => by simpa using h
  | a :: t, pre, gs, h => by
    have h2 := groupInv_foldl t (pre ++ [a]) (addLog gs a) (groupInv_addLog a h)
    simpa using h2

theorem groupInv_nil : GroupInv [] [] := by
  refine ⟨List.nodup_nil, ?_, ?_⟩ <;> simp

theorem groupInv_devices (logs : List LogEntry) :
    GroupInv (List.insertionSort byOldest logs)
      ((List.insertionSort byOldest logs).foldl addLog []) := by
  have h := groupInv_foldl (List.insertionSort byOldest logs) [] [] groupInv_nil
  simpa using h

theorem sorted_byOldest_le_getLast :
    ∀ {h : List LogEntry}, List.Sorted byOldest h →
      ∀ {x : LogEntry}, h.getLast? = some x → ∀ l ∈ h, l.created_at ≤ x.created_at
  | [], _, x, hx => by simp at hx
  | [a], _, x, hx => by
    simp only [List.getLast?_singleton, Option.some.injEq] at hx
    intro l hl
    rw [List.mem_singleton] at hl
    rw [hl, ← hx]
  | a :: b :: t, hs, x, hx => by
    rw [List.getLast?_cons_cons] at hx
    have hs' := (List.sorted_cons.mp hs)
    intro l hl
    rcases List.mem_cons.mp hl with rfl | hl
    · have hxmem : x ∈ b :: t := mem_of_getLast?_eq hx
      exact hs'.1 x hxmem
    · exact sorted_byOldest_le_getLast hs'.2 hx l hl

/-- C7: grouping mode, folding the records oldest to newest, produces
exactly one group per distinct deviceId; each group's `history` is that
device's records in chronological (fold) order, with length equal to the
device's input count; `latest_log` is a maximum-`created_at` record of the
group and the last of its history; `images` are exactly the group's
image-carrying records (in history order); and the groups are output
ordered by `latest_log.created_at` descending. -/
theorem claim_c7_grouping (logs : List LogEntry) :
    ((devices logs).map GroupedDevice.device_id).Nodup ∧
    (∀ d, d ∈ (devices logs).map GroupedDevice.device_id ↔
      d ∈ logs.map LogEntry.device_id) ∧
    (∀ g ∈ devices logs,
      g.history =
        (List.insertionSort byOldest logs).filter (fun l => l.device_id == g.device_id) ∧
      g.history.length = logs.countP (fun l => l.device_id == g.device_id) ∧
      g.history.getLast? = some g.latest_log ∧
      g.latest_log ∈ g.history ∧
      (∀ l ∈ g.history, l.created_at ≤ g.latest_log.created_at) ∧
      g.images = g.history.filterMap (fun l => l.image_data.map (fun u => (u, l.created_at)))) ∧
    List.Sorted byLatestNewest (devices logs) := by
  obtain ⟨hnd, hmem, hprops⟩ := groupInv_devices logs
  have hperm : List.Perm (devices logs)
      ((List.insertionSort byOldest logs).foldl addLog []) :=
    List.perm_insertionSort byLatestNewest _
  have hpermsort : List.Perm (List.insertionSort byOldest logs) logs :=
    List.perm_insertionSort byOldest logs
  have hmapperm := hperm.map GroupedDevice.device_id
  refine ⟨hmapperm.nodup_iff.mpr hnd, ?_, ?_, List.sorted_insertionSort byLatestNewest _⟩
  · intro d
    exact (hmapperm.mem_iff.trans (hmem d)).trans (hpermsort.map LogEntry.device_id).mem_iff
  · intro g hg
    obtain ⟨hh, hl, hi⟩ := hprops g (hperm.mem_iff.mp hg)
    have hhist_sorted : List.Sorted byOldest g.history := by
      rw [hh]
      exact (List.sorted_insertionSort byOldest logs).filter _
    refine ⟨hh, ?_, hl, mem_of_getLast?_eq hl,
      fun l hlmem => sorted_byOldest_le_getLast hhist_sorted hl l hlmem, hi⟩
    rw [hh, ← List.countP_eq_length_filter]
    exact hpermsort.countP_eq _

/-- Witness for C7 at a concrete input: the single record `exA1` yields
one group whose history has the right length and contains its latest
log. -/
theorem claim_c7_witness :
    exGroupA.history.length = [exA1].countP (fun l => l.device_id == exGroupA.device_id) ∧
      exGroupA.latest_log ∈ exGroupA.history := by
  have hdev : devices [exA1] = [exGroupA] := by rfl
  have h := (claim_c7_grouping [exA1]).2.2.1 exGroupA (by rw [hdev]; simp)
  exact ⟨h.2.1, h.2.2.2.1⟩

/-- C8 (amended): there is no coordinate validation at ingress; both
consumption modes process records regardless of coordinate finiteness.
Every input record appears in its device group's history in grouping
mode, and dedup mode keeps and outputs the NaN-latitude record `exNan`. -/
theorem claim_c8_no_ingress_validation :
    (∀ (logs : List LogEntry) (l : LogEntry), l ∈ logs →
      ∃ g ∈ devices logs, l ∈ g.history) ∧
      processedLogs [exNan] = [exNan] := by
  refine ⟨?_, processedLogs_exNan⟩
  intro logs l hl
  obtain ⟨hnd, hmem, hprops⟩ := groupInv_devices logs
  have hperm : List.Perm (devices logs)
      ((List.insertionSort byOldest logs).foldl addLog []) :=
    List.perm_insertionSort byLatestNewest _
  have hpermsort : List.Perm (List.insertionSort byOldest logs) logs :=
    List.perm_insertionSort byOldest logs
  have hdmem : l.device_id ∈
      ((List.insertionSort byOldest logs).foldl addLog []).map GroupedDevice.device_id :=
    (hmem _).mpr (List.mem_map.mpr ⟨l, hpermsort.mem_iff.mpr hl, rfl⟩)
  obtain ⟨g, hgmem, hgid⟩ := List.mem_map.mp hdmem
  refine ⟨g, hperm.mem_iff.mpr hgmem, ?_⟩
  obtain ⟨hh, _, _⟩ := hprops g hgmem
  rw [hh, List.mem_filter]
  refine ⟨hpermsort.mem_iff.mpr hl, ?_⟩
  rw [hgid]
  simp

/-- Witness for the amended C8 at a concrete input: the NaN-latitude
record passes through both modes. -/
theorem claim_c8_witness :
    (∃ g ∈ devices [exNan], exNan ∈ g.history) ∧ processedLogs [exNan] = [exNan] :=
  ⟨claim_c8_no_ingress_validation.1 [exNan] exNan (by simp),
    claim_c8_no_ingress_validation.2⟩

/-- C2 as stated is false: "finite" is not what the code checks — the
validity test is `typeof === 'number' && !isNaN(...)`, which `Infinity`
passes.  A provider yielding `lat = Infinity` is accepted rather than
skipped, so the chain does not fall through to the fallback. -/
theorem claim_c2_counterexample :
    (getIpLocation [ProviderAttempt.extracted (JsVal.jnum JsNum.inf)
        (JsVal.jnum (JsNum.fin 0)) (some "9.9.9.9")] 0).lat = JsNum.inf ∧
      getIpLocation [ProviderAttempt.extracted (JsVal.jnum JsNum.inf)
        (JsVal.jnum (JsNum.fin 0)) (some "9.9.9.9")] 0 ≠ ipFallback 0 := by
  refine ⟨rfl, ?_⟩
  intro h
  have hlat := congrArg UserLocation.lat h
  simp [getIpLocation, ipFallback, validNum] at hlat

/-- C2 (amended): `getIpLocation` queries the providers strictly in
order and returns the first provider's transformed output whose extracted
lat and lng are both numbers and not `NaN` (infinite values also pass the
check), wrapped with `source = ip` and accuracy 5000; a provider that
fails, throws, or yields a non-number or `NaN` coordinate is skipped and
the chain moves on; if every provider is skipped it returns exactly the
fallback Position with lat -6.2088, lng 106.8456, accuracy 10000 and
ip `'127.0.0.1'` — for every provider outcome it returns a usable
Position and never fails outright. -/
theorem claim_c2_provider_chain :
    (∀ (rest : List ProviderAttempt) (now : ℕ),
      getIpLocation (ProviderAttempt.error :: rest) now = getIpLocation rest now) ∧
    (∀ (lat lng : JsVal) (ip : Option String) (rest : List ProviderAttempt) (now : ℕ),
      validNum lat = none ∨ validNum lng = none →
      getIpLocation (ProviderAttempt.extracted lat lng ip :: rest) now =
        getIpLocation rest now) ∧
    (∀ (lat lng : JsVal) (la ln : JsNum) (ip : Option String)
        (rest : List ProviderAttempt) (now : ℕ),
      validNum lat = some la → validNum lng = some ln →
      getIpLocation (ProviderAttempt.extracted lat lng ip :: rest) now =
        ⟨la, ln, some 5000, now, some Src.ip, ip⟩) ∧
    (∀ now : ℕ, getIpLocation [] now = ipFallback now) ∧
    (∀ (atts : List ProviderAttempt) (now : ℕ),
      (getIpLocation atts now).source = some Src.ip ∧
      ((getIpLocation atts now).accuracy = some 5000 ∨
        (getIpLocation atts now).accuracy = some 10000)) := by
  refine ⟨fun rest now => rfl, ?_, ?_, fun now => rfl, ?_⟩
  · intro lat lng ip rest now h
    rcases h with h | h
    · simp [getIpLocation, h]
    · cases hl : validNum lat <;> simp [getIpLocation, hl, h]
  · intro lat lng la ln ip rest now h1 h2
    simp [getIpLocation, h1, h2]
  · intro atts now
    induction atts with
    | nil => exact ⟨rfl, Or.inr rfl⟩
    | cons a rest ih =>
      cases a with
      | error => exact ih
      | extracted lat lng ip =>
        cases h1 : validNum lat with
        | none => simpa [getIpLocation, h1] using ih
        | some la =>
          cases h2 : validNum lng with
          | none => simpa [getIpLocation, h1, h2] using ih
          | some ln => simp [getIpLocation, h1, h2]

/-- Witness for the amended C2 at a concrete input: a failed first
provider is skipped and the second provider's finite output is returned
wrapped with accuracy 5000. -/
theorem claim_c2_witness :
    getIpLocation [ProviderAttempt.error,
        ProviderAttempt.extracted (JsVal.jnum (JsNum.fin (-6.25)))
          (JsVal.jnum (JsNum.fin 106.9)) (some "1.1.1.1")] 7 =
      ⟨JsNum.fin (-6.25), JsNum.fin 106.9, some 5000, 7, some Src.ip, some "1.1.1.1"⟩ := by
  rw [claim_c2_provider_chain.1]
  exact claim_c2_provider_chain.2.2.1 _ _ _ _ _ _ 7 rfl rfl

/-- C1 as stated is false: when the remote store is configured, the
remote insert is awaited before `saveLocationToBackend` returns (the
`remoteInsertAwaited` effect precedes `returned` in the trace), and on
insert success the returned record already has status `synced`, not
`Local`. -/
theorem claim_c1_counterexample :
    (saveLocationToBackend ipLoc "devW" none "" none ⟨"u-1", 42, true, true⟩).1.status =
        SyncStatus.synced ∧
      (saveLocationToBackend ipLoc "devW" none "" none ⟨"u-1", 42, true, true⟩).2 =
        [SyncEvent.localPostStarted, SyncEvent.remoteInsertAwaited true,
          SyncEvent.returned] :=
  ⟨rfl, rfl⟩

/-- C1 (amended): `saveLocationToBackend` always returns a record with
the freshly generated id, `createdAt = now` and the snapshot's fields,
with the trace ending in the return; the local artifact write is fired
without being awaited; when the remote store is not configured the status
at return is Local and no remote write happens; when it is configured the
remote insert is awaited before the return and the returned status is
Synced exactly when the insert succeeded; the record is returned (usable)
even when both writes fail. -/
theorem claim_c1_sync_pipeline :
    ∀ (loc : UserLocation) (dev : String) (img : Option String) (cip : String)
      (di : Option DeviceInfo) (env : SaveEnv),
      (saveLocationToBackend loc dev img cip di env).1.id = env.uuid ∧
      (saveLocationToBackend loc dev img cip di env).1.created_at = env.now ∧
      (saveLocationToBackend loc dev img cip di env).1.latitude = loc.lat ∧
      (saveLocationToBackend loc dev img cip di env).1.longitude = loc.lng ∧
      (saveLocationToBackend loc dev img cip di env).1.device_id = dev ∧
      (saveLocationToBackend loc dev img cip di env).1.image_data = img ∧
      SyncEvent.localPostStarted ∈ (saveLocationToBackend loc dev img cip di env).2 ∧
      (saveLocationToBackend loc dev img cip di env).2.getLast? = some SyncEvent.returned ∧
      ((saveLocationToBackend loc dev img cip di env).1.status = SyncStatus.synced ↔
        env.isSupabaseConfigured = true ∧ env.insertOk = true) ∧
      (env.isSupabaseConfigured = false →
        (saveLocationToBackend loc dev img cip di env).2 =
          [SyncEvent.localPostStarted, SyncEvent.returned]) ∧
      (env.isSupabaseConfigured = true →
        (saveLocationToBackend loc dev img cip di env).2 =
          [SyncEvent.localPostStarted, SyncEvent.remoteInsertAwaited env.insertOk,
            SyncEvent.returned]) := by
  intro loc dev img cip di env
  obtain ⟨u, n, conf, ok⟩ := env
  cases conf <;> cases ok <;> simp [saveLocationToBackend]

/-- Witness for the amended C1 at a concrete input: with the remote
store unconfigured, the returned record carries the fresh id and the
trace is just the unawaited local post followed by the return. -/
theorem claim_c1_witness :
    (saveLocationToBackend ipLoc "devW" none "" none ⟨"u-2", 43, false, false⟩).1.id =
        "u-2" ∧
      (saveLocationToBackend ipLoc "devW" none "" none ⟨"u-2", 43, false, false⟩).2 =
        [SyncEvent.localPostStarted, SyncEvent.returned] := by
  have h := claim_c1_sync_pipeline ipLoc "devW" none "" none ⟨"u-2", 43, false, false⟩
  exact ⟨h.1, h.2.2.2.2.2.2.2.2.2.1 rfl⟩

theorem save_ip_address (loc : UserLocation) (dev : String) (img : Option String)
    (cip : String) (di : Option DeviceInfo) (env : SaveEnv) :
    (saveLocationToBackend loc dev img cip di env).1.ip_address =
      some (jsOr2 cip loc.ip "Unknown") := by
  obtain ⟨u, n, conf, ok⟩ := env
  cases conf <;> cases ok <;> rfl

theorem jsOr2_ne_empty (a : String) (b : Option String) : jsOr2 a b "Unknown" ≠ "" := by
  unfold jsOr2
  by_cases ha : a = ""
  · rw [if_pos ha]
    cases b with
    | none => decide
    | some s =>
      by_cases hs : s = ""
      · simp [hs]
      · simp [hs]
  · rw [if_neg ha]
    exact ha

/-- C10: every record constructed by the sync pipeline has a non-empty
`ip_address` — equal to the caller-supplied current IP when non-empty,
otherwise the position's ip when present and non-empty, otherwise the
literal `'Unknown'` — and the dedup key function of the consolidation
view applied to the constructed record yields exactly that string, so the
`'Unknown'` fallback is the very sentinel deduplication matches on. -/
theorem claim_c10_ip_sentinel :
    ∀ (loc : UserLocation) (dev : String) (img : Option String) (cip : String)
      (di : Option DeviceInfo) (env : SaveEnv),
      ∃ s : String,
        (saveLocationToBackend loc dev img cip di env).1.ip_address = some s ∧
        s ≠ "" ∧
        (cip ≠ "" → s = cip) ∧
        (cip = "" → ∀ t, loc.ip = some t → t ≠ "" → s = t) ∧
        (cip = "" → loc.ip = none ∨ loc.ip = some "" → s = "Unknown") ∧
        jsOrOpt (saveLocationToBackend loc dev img cip di env).1.ip_address "Unknown" = s := by
  intro loc dev img cip di env
  refine ⟨jsOr2 cip loc.ip "Unknown", save_ip_address loc dev img cip di env,
    jsOr2_ne_empty cip loc.ip, ?_, ?_, ?_, ?_⟩
  · intro hc
    simp [jsOr2, hc]
  · intro hc t ht htne
    simp [jsOr2, hc, ht, htne]
  · intro hc h
    rcases h with h | h <;> simp [jsOr2, hc, h]
  · rw [save_ip_address loc dev img cip di env]
    simp [jsOrOpt, jsOr2_ne_empty cip loc.ip]

/-- Witness for C10 at a concrete input: with no caller IP and no
position ip, the stored `ip_address` is the `'Unknown'` sentinel. -/
theorem claim_c10_witness :
    (saveLocationToBackend gpsLoc "devW" none "" none ⟨"u-3", 44, false, false⟩).1.ip_address =
      some "Unknown" := by
  obtain ⟨s, hip, hne, hcip, hipt, hunk, hkey⟩ :=
    claim_c10_ip_sentinel gpsLoc "devW" none "" none ⟨"u-3", 44, false, false⟩
  rw [hip, hunk rfl (Or.inl rfl)]

theorem appStep_perm (s : AppState) (e : AppEvent) :
    (appStep s e).1.perm = s.perm ∨ e = AppEvent.geoError 1 := by
  cases e with
  | geoFix lat lng acc ts frame => exact Or.inl rfl
  | geoError c =>
    by_cases hc : c = 1
    · exact Or.inr (by rw [hc])
    · left
      simp [appStep, hc]
  | tick frame =>
    left
    cases h : s.lastLoc with
    | none => simp [appStep, h]
    | some loc =>
      by_cases hs : loc.source = some Src.gps
      · simp [appStep, h, hs, handleDataCapture]
      · simp [appStep, h, hs]

theorem appRun_denied_source : ∀ (evs : List AppEvent) (s : AppState),
    (appRun s evs).1.perm = PermState.denied →
      s.perm = PermState.denied ∨ AppEvent.geoError 1 ∈ evs
  | [], _, h => Or.inl h
  | e :: t, s, h => by
    have h' : (appRun (appStep s e).1 t).1.perm = PermState.denied := h
    rcases appRun_denied_source t (appStep s e).1 h' with hd | hm
    · rcases appStep_perm s e with hp | he
      · rw [hp] at hd
        exact Or.inl hd
      · exact Or.inr (by rw [he]; exact List.mem_cons_self _ _)
    · exact Or.inr (List.mem_cons_of_mem _ hm)

/-- C5: the terminal Denied state is reached only through a fatal
permission failure (error code 1) of the location subscription: start()
always reaches Tracking — with the watch and timer running — regardless
of the camera outcome, so a camera acquisition failure never blocks or
fails tracking and never yields Denied; and a non-permission location
error (timeout, transient unavailability) leaves the state, including the
running subscription, entirely unchanged. -/
theorem claim_c5_denied_only_by_permission :
    (∀ (cameraOk : Bool) (s : AppState),
      (startTracking cameraOk s).perm = PermState.tracking ∧
      (startTracking cameraOk s).watching = true ∧
      (startTracking cameraOk s).timerOn = true) ∧
    (∀ (s : AppState) (evs : List AppEvent),
      (appRun s evs).1.perm = PermState.denied →
        s.perm = PermState.denied ∨ AppEvent.geoError 1 ∈ evs) ∧
    (∀ (s : AppState) (c : ℕ), c ≠ 1 → appStep s (AppEvent.geoError c) = (s, none)) := by
  refine ⟨fun cameraOk s => ⟨rfl, rfl, rfl⟩,
    fun s evs h => appRun_denied_source evs s h, ?_⟩
  intro s c hc
  simp [appStep, hc]

/-- Witness for C5 at a concrete input: starting without a camera still
reaches Tracking, and a timeout error (code 3) changes nothing. -/
theorem claim_c5_witness :
    (startTracking false initState).perm = PermState.tracking ∧
      appStep (startTracking false initState) (AppEvent.geoError 3) =
        (startTracking false initState, none) :=
  ⟨(claim_c5_denied_only_by_permission.1 false initState).1,
    claim_c5_denied_only_by_permission.2.2 (startTracking false initState) 3 (by norm_num)⟩

/-- C6 as stated is false: a tick does not always emit a snapshot —
before any GPS fix, or while the shared cell holds an IP-sourced
position, the tick emits nothing, even when a camera frame is
available. -/
theorem claim_c6_counterexample :
    (appRun (startTracking true initState) [AppEvent.tick (some "frame")]).2 = [] ∧
      (appRun { startTracking true initState with lastLoc := some ipLoc }
        [AppEvent.tick (some "frame")]).2 = [] := by
  constructor <;> rfl

/-- C6 (amended): on every tick on which the shared cell holds a
GPS-sourced position, the snapshot reads the current value of the cell —
after a fix, the value that fix wrote, whatever the cell held at start —
and combines it with the tick's camera frame and the device fingerprint;
it is emitted regardless of whether the position changed since the
previous tick (after one fix, two back-to-back ticks both emit the same
position); a tick with no GPS-sourced position in the cell emits
nothing. -/
theorem claim_c6_tick_reads_current_cell :
    (∀ (s : AppState) (p : UserLocation) (f : Option String),
      s.lastLoc = some p → p.source = some Src.gps →
      appStep s (AppEvent.tick f) = (s, some ⟨p, f, s.deviceInfo, s.deviceId⟩)) ∧
    (∀ (s : AppState) (lat lng acc : ℝ) (ts : ℕ) (f0 f1 f2 : Option String),
      (appRun s [AppEvent.geoFix lat lng acc ts f0, AppEvent.tick f1,
          AppEvent.tick f2]).2 =
        [⟨⟨JsNum.fin lat, JsNum.fin lng, some acc, ts, some Src.gps, none⟩, f0,
            s.deviceInfo, s.deviceId⟩,
          ⟨⟨JsNum.fin lat, JsNum.fin lng, some acc, ts, some Src.gps, none⟩, f1,
            s.deviceInfo, s.deviceId⟩,
          ⟨⟨JsNum.fin lat, JsNum.fin lng, some acc, ts, some Src.gps, none⟩, f2,
            s.deviceInfo, s.deviceId⟩]) ∧
    (∀ (s : AppState) (f : Option String), s.lastLoc = none →
      appStep s (AppEvent.tick f) = (s, none)) ∧
    (∀ (s : AppState) (p : UserLocation) (f : Option String), s.lastLoc = some p →
      p.source ≠ some Src.gps → appStep s (AppEvent.tick f) = (s, none)) := by
  refine ⟨?_, ?_, ?_, ?_⟩
  · intro s p f hp hgps
    simp [appStep, hp, hgps, handleDataCapture]
  · intro s lat lng acc ts f0 f1 f2
    rfl
  · intro s f hp
    simp [appStep, hp]
  · intro s p f hp hgps
    simp [appStep, hp, hgps]

/-- Witness for the amended C6 at a concrete input: a tick with a
GPS-sourced position in the cell emits a snapshot carrying that very
position, the frame and the fingerprint. -/
theorem claim_c6_witness :
    appStep { startTracking true initState with lastLoc := some gpsLoc }
        (AppEvent.tick (some "f")) =
      ({ startTracking true initState with lastLoc := some gpsLoc },
        some ⟨gpsLoc, some "f", sampleInfo, "user_x1"⟩) :=
  claim_c6_tick_reads_current_cell.1
    { startTracking true initState with lastLoc := some gpsLoc } gpsLoc (some "f") rfl rfl
